import Mathlib

/-!
Verification development for the PlatinaArchive client (analyzer.py,
client.py, models.py).  Python code is shallowly embedded: OCR and image
inputs (hash distances, pixel colors, recognized integers) are modelled as
abstract inputs to the pipeline, Python floats are modelled as exact
rationals, Python `round` as round-half-to-even on rationals, and Python
string ranks / difficulty literals as inductive types.  Python runtime
failures (ArchiveException, ZeroDivisionError, UnboundLocalError) are
modelled with `Except`.
-/

namespace Platina

/-- Difficulty literals of the game.  `UNKNOWN` is the sentinel returned by
`ScreenshotAnalyzer.get_difficulty` when the sampled pixel matches no known
difficulty color (analyzer.py line 514). -/
inductive DiffTag
  | EASY
  | HARD
  | OVER
  | PLUS
  | UNKNOWN
deriving DecidableEq, Repr

/-- Rank string literals returned by `calculate_rank` (analyzer.py lines
530-552) together with the separately detected "F" rank. -/
inductive Rank
  | C
  | B
  | A
  | APlus
  | AA
  | AAPlus
  | S
  | SPlus
  | SS
  | SSPlus
  | F
deriving DecidableEq, Repr

/-- Position of a rank in the threshold ladder of `calculate_rank`, used to
state monotonicity.  `F` is never produced by `calculate_rank`; it is given
the top index so it does not interfere with the ladder. -/
def rankOrd : Rank → ℕ
  | .C => 0
  | .B => 1
  | .A => 2
  | .APlus => 3
  | .AA => 4
  | .AAPlus => 5
  | .S => 6
  | .SPlus => 7
  | .SS => 8
  | .SSPlus => 9
  | .F => 10

/-- Python `round()` to an integer: round-half-to-even on exact rationals. -/
def pyRoundInt (q : ℚ) : ℤ :=
  if q - ⌊q⌋ = 1 / 2 then (if ⌊q⌋ % 2 = 0 then ⌊q⌋ else ⌊q⌋ + 1) else round q

/-- Python `round(q, n)`: round-half-to-even at `n` decimal places. -/
def pyRound (n : ℕ) (q : ℚ) : ℚ :=
  (pyRoundInt (q * 10 ^ n) : ℚ) / 10 ^ n

/-- Embedding of `ScreenshotAnalyzer.calculate_judge_rate` (analyzer.py lines
516-524).  Python raises `ZeroDivisionError` when the five counts sum to
zero; this is modelled by `none`.  Inputs are `ℤ` because the repaired
counts fed to it by `extract_info` can be negative. -/
def calculate_judge_rate (ph p g d m : ℤ) : Option ℚ :=
  let total_judge := (ph + p) * 100 + g * 70 + d * 30
  let total_notes := ph + p + g + d + m
  if total_notes = 0 then none
  else some (pyRound 4 ((total_judge : ℚ) / (total_notes : ℚ)))

/-- Embedding of `ScreenshotAnalyzer.calculate_score` (analyzer.py lines
526-528). -/
def calculate_score (perfect_high perfect great : ℤ) : ℤ :=
  200 * perfect_high + 150 * perfect + 100 * great

/-- Embedding of `ScreenshotAnalyzer.calculate_rank` (analyzer.py lines
530-552). -/
def calculate_rank (judge_rate : ℚ) : Rank :=
  if judge_rate ≥ 99.8 then .SSPlus
  else if judge_rate ≥ 99.5 then .SS
  else if judge_rate ≥ 99 then .SPlus
  else if judge_rate ≥ 98 then .S
  else if judge_rate ≥ 97 then .AAPlus
  else if judge_rate ≥ 95 then .AA
  else if judge_rate ≥ 90 then .APlus
  else if judge_rate ≥ 80 then .A
  else if judge_rate ≥ 70 then .B
  else .C

/-- The `rank_ratio` table of `ScreenshotAnalyzer.calculate_patch`
(analyzer.py lines 562-573).  The source dictionary has no entry for `F`
(`calculate_patch` returns before the lookup, so a lookup at `F` never
happens); the value chosen here for `F` is never consulted. -/
def rank_ratio : Rank → ℚ
  | .C => 0.2
  | .B => 0.3
  | .A => 0.4
  | .APlus => 0.5
  | .AA => 0.6
  | .AAPlus => 0.7
  | .S => 0.8
  | .SPlus => 0.9
  | .SS => 0.95
  | .SSPlus => 1
  | .F => 0

/-- Embedding of `ScreenshotAnalyzer.calculate_patch` (analyzer.py lines
554-583). -/
def calculate_patch (level : ℤ) (rank : Rank) (is_plus : Bool) (judge : ℚ) : ℚ :=
  if rank = .F then 0
  else
    let patch_base := (level : ℚ) * 42 * (judge / 100) * rank_ratio rank
    let patch_base := if is_plus then patch_base * 1.02 else patch_base
    pyRound 2 patch_base

/-- Embedding of `ScreenshotAnalyzer.verify_notes_count` (analyzer.py lines
585-601). -/
def verify_notes_count (total perfect_high perfect great good miss : ℤ) :
    ℤ × ℤ × ℤ × ℤ × ℤ :=
  if total = perfect_high + perfect + great + good + miss then
    (perfect_high, perfect, great, good, miss)
  else if perfect_high > total then
    (total - (perfect + great + good + miss), perfect, great, good, miss)
  else if perfect > total then
    (perfect_high, total - (perfect_high + great + good + miss), great, good, miss)
  else if great > total then
    (perfect_high, perfect, total - (perfect_high + perfect + good + miss), good, miss)
  else if good > total then
    (perfect_high, perfect, great, total - (perfect_high + perfect + great + miss), miss)
  else
    (perfect_high, perfect, great, good, total - (perfect_high + perfect + great + good))

/-- Sum of the five components of a judgement-count tuple. -/
def sum5 (t : ℤ × ℤ × ℤ × ℤ × ℤ) : ℤ :=
  t.1 + t.2.1 + t.2.2.1 + t.2.2.2.1 + t.2.2.2.2

/-- Embedding of `Pattern` (models.py lines 226-256).  The `designer` field
is carried by the source but never read by any pipeline logic, so it is
omitted here. -/
structure Pattern where
  line : ℤ
  difficulty : DiffTag
  level : ℤ
deriving DecidableEq, Repr

/-- Embedding of `Song` (models.py lines 259-321).  Title, artist, BPM, DLC
and the two jacket hashes are image/string data never consumed by the logic
under verification; only the id and the pattern list are kept. -/
structure Song where
  id : ℤ
  patterns : List Pattern
deriving DecidableEq, Repr

/-- Embedding of `Song.get_available_levels` (models.py lines 314-321). -/
def getAvailableLevels (s : Song) (line : ℤ) (difficulty : DiffTag) : List ℤ :=
  (s.patterns.filter fun pt => decide (pt.line = line ∧ pt.difficulty = difficulty)).map
    (fun pt => pt.level)

/-- Embedding of `AnalysisReport` (models.py lines 108-223).  The jacket
image and jacket hash fields are raw image data and are omitted; the match
distance is kept as the Hamming distance (a natural number). -/
structure AnalysisReport where
  song : Song
  score : ℤ
  judge : ℚ
  patch : ℚ
  line : ℤ
  difficulty : DiffTag
  level : ℤ
  matchDistance : ℕ
  rank : Rank
  isFullCombo : Bool
  isPerfectDecode : Bool
  isMaximumPatch : Bool
  totalNotes : ℤ
  perfectHigh : ℤ
deriving DecidableEq, Repr

/-- Failure modes of one analysis run.  `recognitionRejected` is the
`ArchiveException` raised at analyzer.py lines 174 and 666;
`zeroDivision` is the Python `ZeroDivisionError` raised inside
`calculate_judge_rate` when the judgement counts sum to zero;
`unboundLocal` is the Python `UnboundLocalError` raised when
`_analyze_select_screen` reaches the `AnalysisReport` constructor without
the pivot scan ever having assigned `difficulty`/`level`. -/
inductive ArchiveError
  | recognitionRejected
  | zeroDivision
  | unboundLocal
deriving DecidableEq, Repr

/-- Embedding of `ScreenshotAnalyzer.get_difficulty` (analyzer.py lines
506-514) applied to the sampled difficulty-color pixel: per-channel
tolerance check (`<= COLOR_TOLERANCE`, tolerance 5) against the four
difficulty colors, in dictionary order. -/
def get_difficulty (r g b : ℤ) : DiffTag :=
  if |r - 254| ≤ 5 ∧ |g - 179| ≤ 5 ∧ |b - 26| ≤ 5 then .EASY
  else if |r - 252| ≤ 5 ∧ |g - 109| ≤ 5 ∧ |b - 111| ≤ 5 then .HARD
  else if |r - 187| ≤ 5 ∧ |g - 99| ≤ 5 ∧ |b - 219| ≤ 5 then .OVER
  else if |r - 69| ≤ 5 ∧ |g - 81| ≤ 5 ∧ |b - 141| ≤ 5 then .PLUS
  else .UNKNOWN

/-- Embedding of `ScreenshotAnalyzer.is_pivot_pixel` (analyzer.py lines
149-161): strict per-channel tolerance check (`< 5`) against the four
select-screen difficulty arrow colors. -/
def is_pivot_pixel (r g b : ℤ) : Option DiffTag :=
  if |r - 231| < 5 ∧ |g - 136| < 5 ∧ |b - 40| < 5 then some .EASY
  else if |r - 234| < 5 ∧ |g - 98| < 5 ∧ |b - 124| < 5 then some .HARD
  else if |r - 146| < 5 ∧ |g - 115| < 5 ∧ |b - 254| < 5 then some .OVER
  else if |r - 31| < 5 ∧ |g - 45| < 5 ∧ |b - 90| < 5 then some .PLUS
  else none

/-- Embedding of the pivot-scan loop of `_analyze_select_screen`
(analyzer.py lines 204-237): scan the reference-frame pixel column at
x = 843, y = 627 .. 1039, and return the difficulty of the first pixel
recognized by `is_pivot_pixel`.  The screenshot column is abstracted as a
function from the scanned y coordinate to an RGB triple. -/
def findPivot (px : ℕ → ℤ × ℤ × ℤ) : Option DiffTag :=
  ((List.range 413).map (fun i => 627 + i)).findSome? fun y =>
    is_pivot_pixel (px y).1 (px y).2.1 (px y).2.2

/-- Decimal digit count of a natural number, the length of Python
`str(n)`. -/
def numDigits (n : ℕ) : ℕ :=
  (Nat.toDigits 10 n).length

/-- Reassembly of the select-screen patch value from its two OCR halves
(analyzer.py lines 187-189): a minor part below 10 is prefixed with one
zero, then `float(f"{major}.{minor}")` is taken. -/
def selectPatch (major minor : ℕ) : ℚ :=
  if minor < 10 then (major : ℚ) + (minor : ℚ) / 100
  else (major : ℚ) + (minor : ℚ) / 10 ^ numDigits minor

/-- Reassembly of the select-screen judge value from its two OCR halves
(analyzer.py lines 191-198): the minor part is left-padded with zeros to
width 4, then `float(f"{major}.{minor}")` is taken. -/
def selectJudge (major minor : ℕ) : ℚ :=
  (major : ℚ) + (minor : ℚ) / 10 ^ max 4 (numDigits minor)

/-- Abstracted recognition inputs of one result-screen analysis
(`extract_info`, analyzer.py lines 654-761).  Every field holds the value
an OCR / hash recognizer produced for its region: `matchDistance` is the
best jacket-hash Hamming distance, `rankFDist` the Hamming distance between
the rank crop's hash and the reference F-rank hash, and `pixel` the RGB
value sampled at the difficulty-color point.  `score_ocr` is read by the
source but never used downstream; it is kept for faithfulness. -/
structure ResultRecog where
  matchedSong : Song
  matchDistance : ℕ
  lines : ℤ
  level_ocr : ℤ
  patch_ocr : ℚ
  score_ocr : ℤ
  total_notes : ℤ
  perfect_high : ℤ
  perfect : ℤ
  great : ℤ
  good : ℤ
  miss : ℤ
  rankFDist : ℕ
  pixel : ℤ × ℤ × ℤ

/-- Embedding of the result-screen branch of
`ScreenshotAnalyzer.extract_info` after the jacket-match gate (analyzer.py
lines 670-761).  The order of operations follows the source: note-count
repair, difficulty color check, judge-rate / score / rank / patch
calculation, the F-rank hash override, the catalog level override, derived
flags, and the patch cross-validation against the OCR patch. -/
def extractInfoResultBody (rec : ResultRecog) : Except ArchiveError AnalysisReport :=
    let c := verify_notes_count rec.total_notes rec.perfect_high rec.perfect
      rec.great rec.good rec.miss
    let ph := c.1
    let p := c.2.1
    let g := c.2.2.1
    let d := c.2.2.2.1
    let m := c.2.2.2.2
    let difficulty_str := get_difficulty rec.pixel.1 rec.pixel.2.1 rec.pixel.2.2
    let is_plus := decide (difficulty_str = DiffTag.PLUS)
    match calculate_judge_rate ph p g d m with
    | none => .error .zeroDivision
    | some calculated_judge_rate =>
      let calculated_score := calculate_score ph p g
      let calculated_rank :=
        if rec.rankFDist < 5 then Rank.F else calculate_rank calculated_judge_rate
      let calculated_patch :=
        calculate_patch rec.level_ocr calculated_rank is_plus calculated_judge_rate
      let available_levels := getAvailableLevels rec.matchedSong rec.lines difficulty_str
      let level_int :=
        match available_levels with
        | [l] => l
        | _ => rec.level_ocr
      let is_full_combo := decide (m = 0)
      let is_perfect_decode := decide (calculated_judge_rate = 100)
      let is_maximum_patch :=
        is_perfect_decode && decide ((ph : ℚ) / (rec.total_notes : ℚ) ≥ 0.98)
      let patch_distance := rec.patch_ocr - calculated_patch
      let calculated_patch :=
        if -0.1 ≤ patch_distance ∧ patch_distance ≤ 0.1 then rec.patch_ocr
        else calculated_patch
      let calculated_patch :=
        if is_perfect_decode then rec.patch_ocr else calculated_patch
      .ok ⟨rec.matchedSong, calculated_score, calculated_judge_rate, calculated_patch,
        rec.lines, difficulty_str, level_int, rec.matchDistance, calculated_rank,
        is_full_combo, is_perfect_decode, is_maximum_patch, rec.total_notes, ph⟩

/-- The jacket-match acceptance gate of the result-screen path of
`extract_info` (analyzer.py lines 665-668): reject when the best match
distance exceeds 5, otherwise run the rest of the pipeline. -/
def extractInfoResult (rec : ResultRecog) : Except ArchiveError AnalysisReport :=
  if 5 < rec.matchDistance then .error .recognitionRejected
  else extractInfoResultBody rec

/-- Abstracted recognition inputs of one select-screen analysis
(`_analyze_select_screen`, analyzer.py lines 163-289).  `px` is the scanned
difficulty-arrow pixel column, `level_phash` the value
`read_selected_level_by_phash` would produce for the level crop,
`fullComboDist` the Hamming distance of the full-combo crop's hash to the
reference hash, `rankFDist` the distance of the rank crop's hash to the
F-rank hash, and `maxPatchPixel` the RGB value at the max-patch point. -/
structure SelectRecog where
  matchedSong : Song
  matchDistance : ℕ
  line : ℤ
  score : ℤ
  major_patch : ℕ
  minor_patch : ℕ
  major_judge : ℕ
  minor_judge : ℕ
  px : ℕ → ℤ × ℤ × ℤ
  level_ocr : ℤ
  level_phash : ℤ
  fullComboDist : ℕ
  rankFDist : ℕ
  maxPatchPixel : ℤ × ℤ × ℤ

/-- Embedding of `ScreenshotAnalyzer._analyze_select_screen` after the
jacket-match gate (analyzer.py lines 178-289).  When the pivot scan finds
no difficulty arrow the Python
source falls through to the `AnalysisReport` constructor with the local
variables `difficulty` and `level` never assigned, raising
`UnboundLocalError`; that is the `.unboundLocal` branch.  The report is
built with the source's default `total_notes = 0`, `perfect_high = 0`. -/
def analyzeSelectBody (rec : SelectRecog) : Except ArchiveError AnalysisReport :=
    let patch := selectPatch rec.major_patch rec.minor_patch
    let judge := selectJudge rec.major_judge rec.minor_judge
    match findPivot rec.px with
    | none => .error .unboundLocal
    | some difficulty =>
      let level := rec.level_ocr
      let available_levels := getAvailableLevels rec.matchedSong rec.line difficulty
      let level :=
        match available_levels with
        | [l] => l
        | _ => level
      let level := if level ∈ available_levels then level else rec.level_phash
      let is_full_combo := decide (rec.fullComboDist < 5)
      let is_full_combo := if judge = 100 then true else is_full_combo
      let is_perfect_decode := decide (judge = (100 : ℚ))
      let is_max_patch :=
        decide (|rec.maxPatchPixel.1 - 200| < 5 ∧ |rec.maxPatchPixel.2.1 - 111| < 5 ∧
          |rec.maxPatchPixel.2.2 - 254| < 5)
      let rank := if rec.rankFDist < 5 then Rank.F else calculate_rank judge
      .ok ⟨rec.matchedSong, rec.score, judge, patch, rec.line, difficulty, level,
        rec.matchDistance, rank, is_full_combo, is_perfect_decode, is_max_patch, 0, 0⟩

/-- The jacket-match acceptance gate of `_analyze_select_screen`
(analyzer.py lines 173-176): reject when the best match distance exceeds 5,
otherwise run the rest of the select-screen pipeline. -/
def analyzeSelect (rec : SelectRecog) : Except ArchiveError AnalysisReport :=
  if 5 < rec.matchDistance then .error .recognitionRejected
  else analyzeSelectBody rec

/-- Embedding of `DecodeResult` (models.py lines 18-105), one stored best
record.  `decodedAt` is a UTC timestamp in seconds. -/
structure DecodeResult where
  songId : ℤ
  line : ℤ
  difficulty : DiffTag
  level : ℤ
  judge : ℚ
  score : ℤ
  patch : ℚ
  decodedAt : ℤ
  isFullCombo : Bool
  isMaxPatch : Bool
deriving DecidableEq, Repr

/-- Archive key.  The source uses the string
`f"{song_id}|{line}|{difficulty}|{level}"` (client.py lines 266-268); the
four components are kept as a tuple here, which identifies the same keys. -/
structure ArchiveKey where
  songId : ℤ
  line : ℤ
  difficulty : DiffTag
  level : ℤ
deriving DecidableEq, Repr

/-- Archive key of a report (client.py lines 266-268). -/
def reportKey (r : AnalysisReport) : ArchiveKey :=
  ⟨r.song.id, r.line, r.difficulty, r.level⟩

/-- Flat record pushed to the archive-sync endpoint, the
`AnalysisReport.json()` payload (models.py lines 148-159). -/
structure SyncPayload where
  songId : ℤ
  line : ℤ
  difficulty : DiffTag
  level : ℤ
  judge : ℚ
  score : ℤ
  patch : ℚ
  isFullCombo : Bool
  isMaxPatch : Bool
deriving DecidableEq, Repr

/-- The payload `new_archive.json()` sent at client.py line 364. -/
def reportPayload (r : AnalysisReport) : SyncPayload :=
  ⟨r.song.id, r.line, r.difficulty, r.level, r.judge, r.score, r.patch,
    r.isFullCombo, r.isMaximumPatch⟩

/-- Badge suffix appended to a judge log line (client.py lines 236-241,
303-308, 320-330). -/
inductive Badge
  | maximumPatch
  | perfectDecode
  | fullCombo
deriving DecidableEq, Repr

/-- One log line emitted by the reconciliation part of `update_display` /
`log_higher_score_and_report`.  Constructors carry exactly the data
interpolated into the corresponding source message. -/
inductive LogMsg
  | notUpdated (songId line : ℤ) (difficulty : DiffTag) (level days hours : ℤ)
  | bestJudge (judge : ℚ) (badge : Option Badge)
  | bestScore (score : ℤ)
  | bestPatch (patch : ℚ)
  | updated (songId line : ℤ) (difficulty : DiffTag) (level : ℤ)
  | judgeDelta (oldJudge : ℚ) (oldBadge : Option Badge) (newJudge : ℚ)
      (newBadge : Option Badge) (delta : ℚ)
  | scoreDelta (oldScore newScore delta : ℤ)
  | patchDelta (oldPatch newPatch delta : ℚ)
  | needPerfectHigh (count : ℤ)
deriving DecidableEq, Repr

/-- The win decision of `update_display` (client.py lines 285-295): the
chain of early returns into `log_higher_score_and_report`, extracted as a
predicate.  The new report wins exactly when one of the three branches
calls `log_higher_score_and_report`. -/
def reportWins (r : AnalysisReport) (e : DecodeResult) : Bool :=
  if e.judge < r.judge then true
  else if r.judge = e.judge then
    if e.score < r.score then true
    else if r.score = e.score then r.isFullCombo && !e.isFullCombo
    else false
  else false

/-- The existing archive entry used by `update_display` (client.py lines
270-284): the stored record, or a zero-valued placeholder stamped with the
current time when the key is absent. -/
def existingFor (archive : ArchiveKey → Option DecodeResult) (r : AnalysisReport)
    (now : ℤ) : DecodeResult :=
  (archive (reportKey r)).getD
    ⟨r.song.id, r.line, r.difficulty, r.level, 0, 0, 0, now, false, false⟩

/-- Badge of the "Best Judge" line on the no-update path (client.py lines
302-308). -/
def loseBadge (e : DecodeResult) : Option Badge :=
  if e.isMaxPatch then some .maximumPatch
  else if e.judge = 100 then some .perfectDecode
  else if e.isFullCombo then some .fullCombo
  else none

/-- Badge of the old record on the update path (client.py lines 319-323):
note the source checks only perfect decode and full combo here. -/
def oldBadge (e : DecodeResult) : Option Badge :=
  if e.judge = 100 then some .perfectDecode
  else if e.isFullCombo then some .fullCombo
  else none

/-- Badge of the new report on the update path (client.py lines 325-330). -/
def newBadge (r : AnalysisReport) : Option Badge :=
  if r.isMaximumPatch then some .maximumPatch
  else if r.isPerfectDecode then some .perfectDecode
  else if r.isFullCombo then some .fullCombo
  else none

/-- Embedding of `log_higher_score_and_report` (client.py lines 313-388):
log the deltas, send one sync request, and overwrite the stored record's
fields in place.  The second `datetime.now` call at line 385 is identified
with the reconciliation timestamp `now`. -/
def logHigherScoreAndReport (archive : ArchiveKey → Option DecodeResult)
    (r : AnalysisReport) (e : DecodeResult) (now : ℤ) :
    (ArchiveKey → Option DecodeResult) × List SyncPayload × List LogMsg :=
  let logs :=
    [LogMsg.updated r.song.id r.line r.difficulty r.level,
     LogMsg.judgeDelta e.judge (oldBadge e) r.judge (newBadge r)
       (pyRound 4 (r.judge - e.judge)),
     LogMsg.scoreDelta e.score r.score (r.score - e.score),
     LogMsg.patchDelta e.patch r.patch (pyRound 2 (r.patch - e.patch))] ++
    (if r.isPerfectDecode = true ∧ ¬r.totalNotes = 0 ∧ r.isMaximumPatch = false then
      [LogMsg.needPerfectHigh (⌈(r.totalNotes : ℚ) * 0.98⌉ - r.perfectHigh)]
    else [])
  let updatedRec : DecodeResult :=
    ⟨e.songId, e.line, e.difficulty, e.level, r.judge, r.score, r.patch, now,
      r.isFullCombo, r.isMaximumPatch⟩
  (fun k => if k = reportKey r then some updatedRec else archive k,
   [reportPayload r], logs)

/-- Embedding of the reconciliation part of `update_display` (client.py
lines 265-311): look up the stored best record, decide the win per the
lexicographic comparison, and either delegate to
`log_higher_score_and_report` or emit the no-update summary with the
elapsed time (`timedelta` days and its hour component, both by floor
division as in Python). -/
def updateArchive (archive : ArchiveKey → Option DecodeResult)
    (r : AnalysisReport) (now : ℤ) :
    (ArchiveKey → Option DecodeResult) × List SyncPayload × List LogMsg :=
  let e := existingFor archive r now
  if reportWins r e then logHigherScoreAndReport archive r e now
  else
    let dt := now - e.decodedAt
    (archive, [],
     [LogMsg.notUpdated r.song.id r.line r.difficulty r.level
        (Int.fdiv dt 86400) (Int.fdiv (Int.fmod dt 86400) 3600),
      LogMsg.bestJudge e.judge (loseBadge e),
      LogMsg.bestScore e.score,
      LogMsg.bestPatch e.patch])

/-- Modelled from the spec's words (§4.6, rank ladder): the fixed
descending threshold ladder on accuracy, to be compared with the source's
`calculate_rank`. -/
def rank_ladder_spec (accuracy : ℚ) : Rank :=
  if accuracy ≥ 99.8 then .SSPlus
  else if accuracy ≥ 99.5 then .SS
  else if accuracy ≥ 99 then .SPlus
  else if accuracy ≥ 98 then .S
  else if accuracy ≥ 97 then .AAPlus
  else if accuracy ≥ 95 then .AA
  else if accuracy ≥ 90 then .APlus
  else if accuracy ≥ 80 then .A
  else if accuracy ≥ 70 then .B
  else .C

/-- Modelled from the spec's words (§4.6, note-count repair): accept a
consistent five-tuple unchanged; otherwise recompute the first tier, in
priority order, whose value strictly exceeds the total, as the total minus
the sum of the other four; if no tier exceeds the total, recompute miss
this way unconditionally.  To be compared with the source's
`verify_notes_count`. -/
def notes_repair_spec (total ph p g d m : ℤ) : ℤ × ℤ × ℤ × ℤ × ℤ :=
  if ph + p + g + d + m = total then (ph, p, g, d, m)
  else if total < ph then (total - (p + g + d + m), p, g, d, m)
  else if total < p then (ph, total - (ph + g + d + m), g, d, m)
  else if total < g then (ph, p, total - (ph + p + d + m), d, m)
  else if total < d then (ph, p, g, total - (ph + p + g + m), m)
  else (ph, p, g, d, total - (ph + p + g + d))

/-- A rational whose fractional part is exactly one half rounds to its
floor or its ceiling; every other rational rounds to the nearest integer.
Consequence used below: `pyRoundInt` never goes below the floor. -/
lemma floor_le_pyRoundInt (q : ℚ) : ⌊q⌋ ≤ pyRoundInt q := by
  unfold pyRoundInt
  split_ifs with h1 h2
  · exact le_refl _
  · omega
  · rw [round_eq]
    exact Int.floor_le_floor (by linarith)

/-- Rounding never goes above any integer bound on the argument. -/
lemma pyRoundInt_le {q : ℚ} {M : ℤ} (h : q ≤ (M : ℚ)) : pyRoundInt q ≤ M := by
  have hfl : ⌊q⌋ ≤ M := by
    have := Int.floor_le_floor h
    simpa using this
  unfold pyRoundInt
  split_ifs with h1 h2
  · exact hfl
  · have hq : q = (⌊q⌋ : ℚ) + 1 / 2 := by linarith
    have hlt : (⌊q⌋ : ℚ) < (M : ℚ) := by
      rw [hq] at h
      linarith
    have : ⌊q⌋ < M := by exact_mod_cast hlt
    omega
  · rw [round_eq]
    have : q + 1 / 2 < ((M + 1 : ℤ) : ℚ) := by push_cast; linarith
    have := Int.floor_lt.mpr this
    omega

/-- Rounding never goes below zero for a nonnegative argument. -/
lemma pyRoundInt_nonneg {q : ℚ} (h : 0 ≤ q) : 0 ≤ pyRoundInt q := by
  have := floor_le_pyRoundInt q
  have := Int.floor_nonneg.mpr h
  omega

/-- Rounding an exact integer is the identity. -/
lemma pyRoundInt_intCast (z : ℤ) : pyRoundInt (z : ℚ) = z := by
  unfold pyRoundInt
  rw [Int.floor_intCast, round_intCast]
  norm_num

/-- Evaluation rule for `pyRound` when the scaled argument is an exact
integer. -/
lemma pyRound_eq_of_mul_eq (n : ℕ) (q : ℚ) (z : ℤ) (h : q * 10 ^ n = (z : ℚ)) :
    pyRound n q = (z : ℚ) / 10 ^ n := by
  unfold pyRound
  rw [h, pyRoundInt_intCast]

/-- Decimal rounding preserves nonnegativity. -/
lemma pyRound_nonneg (n : ℕ) {q : ℚ} (h : 0 ≤ q) : 0 ≤ pyRound n q := by
  unfold pyRound
  have h1 : 0 ≤ pyRoundInt (q * 10 ^ n) := pyRoundInt_nonneg (by positivity)
  positivity

/-- Decimal rounding preserves an integer upper bound. -/
lemma pyRound_le (n : ℕ) {q : ℚ} {M : ℤ} (h : q ≤ (M : ℚ)) : pyRound n q ≤ M := by
  unfold pyRound
  rw [div_le_iff₀ (by positivity)]
  have hq : q * 10 ^ n ≤ ((M * 10 ^ n : ℤ) : ℚ) := by
    push_cast
    have hpow : (0 : ℚ) ≤ 10 ^ n := by positivity
    nlinarith
  have := pyRoundInt_le hq
  calc (pyRoundInt (q * 10 ^ n) : ℚ) ≤ ((M * 10 ^ n : ℤ) : ℚ) := by exact_mod_cast this
    _ = (M : ℚ) * 10 ^ n := by push_cast; ring

/-- Concrete one-pattern song used by the concrete evaluations below. -/
def testSong : Song := ⟨1, [⟨4, .EASY, 10⟩]⟩

/-- Result-screen recognition input in which every per-field recognizer
returned its documented fallback value 0 (and the jacket match is perfect,
distance 0). -/
def recogAllZero : ResultRecog :=
  ⟨testSong, 0, 0, 0, 0, 0, 0, 0, 0, 0, 0, 0, 64, (0, 0, 0)⟩

/-- Result-screen recognition input with a perfect jacket match, an OCR
level of 5 that disagrees with the catalog's unique level 10 for
(4 lines, EASY), and judgement counts 90/0/10/0/0 of 100 notes. -/
def recogC7 : ResultRecog :=
  ⟨testSong, 0, 4, 5, 0, 0, 100, 90, 0, 10, 0, 0, 64, (254, 179, 26)⟩

/-- The report `extractInfoResult` produces for `recogC7`: the level field
is the catalog's 10, but the patch 142.59 was derived from the OCR level
5. -/
def reportC7 : AnalysisReport :=
  ⟨testSong, 19000, 97, 14259 / 100, 4, .EASY, 10, 0, .AAPlus, true, false, false, 100, 90⟩

lemma verify_recogC7 : verify_notes_count 100 90 0 10 0 0 = (90, 0, 10, 0, 0) := by decide

lemma judge_recogC7 : calculate_judge_rate 90 0 10 0 0 = some 97 := by
  unfold calculate_judge_rate
  norm_num
  rw [pyRound_eq_of_mul_eq 4 _ 970000 (by norm_num)]
  norm_num

lemma rank_97 : calculate_rank 97 = .AAPlus := by
  unfold calculate_rank
  norm_num

lemma patch_level5 : calculate_patch 5 .AAPlus false 97 = 14259 / 100 := by
  simp only [calculate_patch, rank_ratio]
  rw [if_neg (by decide)]
  norm_num
  rw [pyRound_eq_of_mul_eq 2 _ 14259 (by norm_num)]
  norm_num

lemma patch_level10 : calculate_patch 10 .AAPlus false 97 = 28518 / 100 := by
  simp only [calculate_patch, rank_ratio]
  rw [if_neg (by decide)]
  norm_num
  rw [pyRound_eq_of_mul_eq 2 _ 28518 (by norm_num)]
  norm_num

lemma avail_testSong : getAvailableLevels testSong 4 .EASY = [10] := by decide

lemma diff_easy_pixel : get_difficulty 254 179 26 = .EASY := by decide

lemma decide_easy_plus : (decide (DiffTag.EASY = DiffTag.PLUS)) = false := by rfl

/-- Concrete end-to-end evaluation of the result-screen pipeline on
`recogC7`. -/
lemma extract_recogC7 : extractInfoResult recogC7 = .ok reportC7 := by
  simp only [extractInfoResult, extractInfoResultBody, recogC7, reportC7]
  norm_num [verify_recogC7, judge_recogC7, rank_97, decide_easy_plus, patch_level5,
    avail_testSong, diff_easy_pixel, calculate_score]

/-- C10: for every input, the five counts returned by `verify_notes_count`
sum exactly to the given total, on every branch including the unconditional
miss-recompute branch; there is no clamping, so a recomputed tier can be
negative while the sum invariant still holds (witnessed by the second
conjunct, where the repaired miss is -5). -/
theorem C10_repair_sum_invariant :
    (∀ total ph p g d m : ℤ, sum5 (verify_notes_count total ph p g d m) = total)
    ∧ verify_notes_count 10 10 0 0 5 0 = (10, 0, 0, 5, -5) := by
  constructor
  · intro total ph p g d m
    unfold verify_notes_count sum5
    split_ifs <;> dsimp only <;> omega
  · decide

/-- C6: note-count repair returns an already-consistent five-tuple
unchanged; in general it coincides with the spec's rule (recompute the
first tier, in priority order, whose value strictly exceeds the total, and
otherwise miss unconditionally); and on total=500, counts=(450,40,5,3,5) it
recomputes miss to 2, leaving the other four tiers unchanged. -/
theorem C6_note_repair :
    (∀ total ph p g d m : ℤ, total = ph + p + g + d + m →
      verify_notes_count total ph p g d m = (ph, p, g, d, m))
    ∧ (∀ total ph p g d m : ℤ,
      verify_notes_count total ph p g d m = notes_repair_spec total ph p g d m)
    ∧ verify_notes_count 500 450 40 5 3 5 = (450, 40, 5, 3, 2) := by
  refine ⟨?_, ?_, by decide⟩
  · intro total ph p g d m h
    unfold verify_notes_count
    rw [if_pos h]
  · intro total ph p g d m
    unfold verify_notes_count notes_repair_spec
    split_ifs <;> first | rfl | (exfalso; omega)

/-- Witness for C6 at the consistent tuple total=498, counts=(450,40,5,3,0). -/
theorem C6_note_repair_witness :
    verify_notes_count 498 450 40 5 3 0 = (450, 40, 5, 3, 0) :=
  C6_note_repair.1 498 450 40 5 3 0 (by decide)

/-- Every rank the ladder can produce sits at position 9 or below. -/
lemma ord_le_9 (a : ℚ) : rankOrd (calculate_rank a) ≤ 9 := by
  unfold calculate_rank
  split_ifs <;> simp [rankOrd]

lemma ord_le_of_lt_99_8 {a : ℚ} (h : ¬ a ≥ 99.8) : rankOrd (calculate_rank a) ≤ 8 := by
  unfold calculate_rank
  split_ifs <;> simp only [rankOrd] <;> first | omega | linarith

lemma ord_le_of_lt_99_5 {a : ℚ} (h : ¬ a ≥ 99.5) : rankOrd (calculate_rank a) ≤ 7 := by
  unfold calculate_rank
  split_ifs <;> simp only [rankOrd] <;> first | omega | linarith

lemma ord_le_of_lt_99 {a : ℚ} (h : ¬ a ≥ 99) : rankOrd (calculate_rank a) ≤ 6 := by
  unfold calculate_rank
  split_ifs <;> simp only [rankOrd] <;> first | omega | linarith

lemma ord_le_of_lt_98 {a : ℚ} (h : ¬ a ≥ 98) : rankOrd (calculate_rank a) ≤ 5 := by
  unfold calculate_rank
  split_ifs <;> simp only [rankOrd] <;> first | omega | linarith

lemma ord_le_of_lt_97 {a : ℚ} (h : ¬ a ≥ 97) : rankOrd (calculate_rank a) ≤ 4 := by
  unfold calculate_rank
  split_ifs <;> simp only [rankOrd] <;> first | omega | linarith

lemma ord_le_of_lt_95 {a : ℚ} (h : ¬ a ≥ 95) : rankOrd (calculate_rank a) ≤ 3 := by
  unfold calculate_rank
  split_ifs <;> simp only [rankOrd] <;> first | omega | linarith

lemma ord_le_of_lt_90 {a : ℚ} (h : ¬ a ≥ 90) : rankOrd (calculate_rank a) ≤ 2 := by
  unfold calculate_rank
  split_ifs <;> simp only [rankOrd] <;> first | omega | linarith

lemma ord_le_of_lt_80 {a : ℚ} (h : ¬ a ≥ 80) : rankOrd (calculate_rank a) ≤ 1 := by
  unfold calculate_rank
  split_ifs <;> simp only [rankOrd] <;> first | omega | linarith

lemma ord_le_of_lt_70 {a : ℚ} (h : ¬ a ≥ 70) : rankOrd (calculate_rank a) ≤ 0 := by
  unfold calculate_rank
  split_ifs <;> simp only [rankOrd] <;> first | omega | linarith

/-- Monotonicity of the rank ladder: a higher accuracy never receives a
lower rank. -/
lemma calc_rank_mono {a b : ℚ} (hab : a ≤ b) :
    rankOrd (calculate_rank a) ≤ rankOrd (calculate_rank b) := by
  by_cases h1 : b ≥ 99.8
  · have hb : calculate_rank b = .SSPlus := by
      unfold calculate_rank
      rw [if_pos h1]
    rw [hb]
    simp only [rankOrd]
    exact ord_le_9 a
  by_cases h2 : b ≥ 99.5
  · have hb : calculate_rank b = .SS := by
      unfold calculate_rank
      rw [if_neg h1, if_pos h2]
    rw [hb]
    simp only [rankOrd]
    exact ord_le_of_lt_99_8 (fun hge => h1 (le_trans hge hab))
  by_cases h3 : b ≥ 99
  · have hb : calculate_rank b = .SPlus := by
      unfold calculate_rank
      rw [if_neg h1, if_neg h2, if_pos h3]
    rw [hb]
    simp only [rankOrd]
    exact ord_le_of_lt_99_5 (fun hge => h2 (le_trans hge hab))
  by_cases h4 : b ≥ 98
  · have hb : calculate_rank b = .S := by
      unfold calculate_rank
      rw [if_neg h1, if_neg h2, if_neg h3, if_pos h4]
    rw [hb]
    simp only [rankOrd]
    exact ord_le_of_lt_99 (fun hge => h3 (le_trans hge hab))
  by_cases h5 : b ≥ 97
  · have hb : calculate_rank b = .AAPlus := by
      unfold calculate_rank
      rw [if_neg h1, if_neg h2, if_neg h3, if_neg h4, if_pos h5]
    rw [hb]
    simp only [rankOrd]
    exact ord_le_of_lt_98 (fun hge => h4 (le_trans hge hab))
  by_cases h6 : b ≥ 95
  · have hb : calculate_rank b = .AA := by
      unfold calculate_rank
      rw [if_neg h1, if_neg h2, if_neg h3, if_neg h4, if_neg h5, if_pos h6]
    rw [hb]
    simp only [rankOrd]
    exact ord_le_of_lt_97 (fun hge => h5 (le_trans hge hab))
  by_cases h7 : b ≥ 90
  · have hb : calculate_rank b = .APlus := by
      unfold calculate_rank
      rw [if_neg h1, if_neg h2, if_neg h3, if_neg h4, if_neg h5, if_neg h6, if_pos h7]
    rw [hb]
    simp only [rankOrd]
    exact ord_le_of_lt_95 (fun hge => h6 (le_trans hge hab))
  by_cases h8 : b ≥ 80
  · have hb : calculate_rank b = .A := by
      unfold calculate_rank
      rw [if_neg h1, if_neg h2, if_neg h3, if_neg h4, if_neg h5, if_neg h6, if_neg h7,
        if_pos h8]
    rw [hb]
    simp only [rankOrd]
    exact ord_le_of_lt_90 (fun hge => h7 (le_trans hge hab))
  by_cases h9 : b ≥ 70
  · have hb : calculate_rank b = .B := by
      unfold calculate_rank
      rw [if_neg h1, if_neg h2, if_neg h3, if_neg h4, if_neg h5, if_neg h6, if_neg h7,
        if_neg h8, if_pos h9]
    rw [hb]
    simp only [rankOrd]
    exact ord_le_of_lt_80 (fun hge => h8 (le_trans hge hab))
  · have hb : calculate_rank b = .C := by
      unfold calculate_rank
      rw [if_neg h1, if_neg h2, if_neg h3, if_neg h4, if_neg h5, if_neg h6, if_neg h7,
        if_neg h8, if_neg h9]
    rw [hb]
    simp only [rankOrd]
    exact ord_le_of_lt_70 (fun hge => h9 (le_trans hge hab))

set_option maxHeartbeats 800000 in
/-- C5: `calculate_rank` is exactly the spec's fixed descending threshold
ladder, it is monotonically non-decreasing in the accuracy, and each exact
threshold boundary receives that threshold's rank. -/
theorem C5_rank_ladder :
    (∀ a : ℚ, calculate_rank a = rank_ladder_spec a)
    ∧ (∀ a b : ℚ, a ≤ b → rankOrd (calculate_rank a) ≤ rankOrd (calculate_rank b))
    ∧ (calculate_rank 99.8 = .SSPlus ∧ calculate_rank 99.5 = .SS
      ∧ calculate_rank 99 = .SPlus ∧ calculate_rank 98 = .S
      ∧ calculate_rank 97 = .AAPlus ∧ calculate_rank 95 = .AA
      ∧ calculate_rank 90 = .APlus ∧ calculate_rank 80 = .A
      ∧ calculate_rank 70 = .B) := by
  refine ⟨fun a => rfl, fun a b hab => calc_rank_mono hab, ?_⟩
  refine ⟨?_, ?_, ?_, ?_, ?_, ?_, ?_, ?_, ?_⟩ <;> (unfold calculate_rank; norm_num)

/-- A numeric inequality used to instantiate the monotonicity clause of
C5. -/
lemma ninety_le_ninetyfive : (90 : ℚ) ≤ 95 := by norm_num

/-- Witness for C5's monotonicity clause at accuracies 90 and 95. -/
theorem C5_rank_ladder_witness :
    rankOrd (calculate_rank 90) ≤ rankOrd (calculate_rank 95) :=
  C5_rank_ladder.2.1 90 95 ninety_le_ninetyfive

/-- C4: `calculate_patch` equals the spec's formula
round(level * 42 * (accuracy/100) * rank_ratio(rank) * (1.02 if plus
else 1), 2), and rank F forces the result to exactly 0 regardless of every
other input. -/
theorem C4_patch_formula :
    (∀ (level : ℤ) (rank : Rank) (is_plus : Bool) (acc : ℚ),
      calculate_patch level rank is_plus acc =
        if rank = Rank.F then 0
        else pyRound 2 ((level : ℚ) * 42 * (acc / 100) * rank_ratio rank *
          (if is_plus then 1.02 else 1)))
    ∧ (∀ (level : ℤ) (is_plus : Bool) (acc : ℚ),
      calculate_patch level Rank.F is_plus acc = 0) := by
  constructor
  · intro level rank is_plus acc
    by_cases hr : rank = Rank.F
    · simp [calculate_patch, hr]
    · have hsplit : ∀ x : ℚ, (if is_plus then x * 1.02 else x) =
          x * (if is_plus then (1.02 : ℚ) else 1) := by
        cases is_plus <;> simp
      simp only [calculate_patch, hr, if_false, hsplit]
      try (congr 1; ring)
  · intro level is_plus acc
    simp [calculate_patch]

/-- C3: for judgement counts with a positive total, `calculate_judge_rate`
returns exactly round(((ph+p)*100 + g*70 + d*30) / (ph+p+g+d+m), 4), the
result lies in 0..100, and at ph=100 with all other counts 0 it yields
100.0 while `calculate_score` yields 20000. -/
theorem C3_accuracy_formula :
    (∀ ph p g d m : ℕ, 0 < ph + p + g + d + m →
      calculate_judge_rate ph p g d m =
        some (pyRound 4 ((((ph : ℚ) + p) * 100 + g * 70 + d * 30) /
          ((ph : ℚ) + p + g + d + m)))
      ∧ ∀ q : ℚ, calculate_judge_rate ph p g d m = some q → 0 ≤ q ∧ q ≤ 100)
    ∧ calculate_judge_rate 100 0 0 0 0 = some 100
    ∧ calculate_score 100 0 0 = 20000 := by
  refine ⟨?_, ?_, by decide⟩
  · intro ph p g d m h
    have hpos : (0 : ℤ) < (ph : ℤ) + p + g + d + m := by exact_mod_cast h
    have htot : ¬((ph : ℤ) + p + g + d + m = 0) := by omega
    constructor
    · unfold calculate_judge_rate
      rw [if_neg htot]
      congr 2
      push_cast
      ring
    · intro q hq
      unfold calculate_judge_rate at hq
      rw [if_neg htot] at hq
      injection hq with hq
      subst hq
      have hT : (0 : ℚ) < ((ph : ℤ) + p + g + d + m : ℤ) := by exact_mod_cast hpos
      constructor
      · apply pyRound_nonneg
        apply div_nonneg
        · push_cast
          positivity
        · exact le_of_lt hT
      · have hle : ((((ph : ℤ) + p) * 100 + g * 70 + d * 30 : ℤ) : ℚ) /
            (((ph : ℤ) + p + g + d + m : ℤ) : ℚ) ≤ ((100 : ℤ) : ℚ) := by
          rw [div_le_iff₀ (by exact_mod_cast hpos)]
          push_cast
          have hg : (0 : ℚ) ≤ g := by positivity
          have hd : (0 : ℚ) ≤ d := by positivity
          have hm : (0 : ℚ) ≤ m := by positivity
          linarith
        exact_mod_cast pyRound_le 4 hle
  · unfold calculate_judge_rate
    norm_num
    rw [pyRound_eq_of_mul_eq 4 _ 1000000 (by norm_num)]
    norm_num

/-- Witness for C3 at ph=100, p=g=d=m=0. -/
theorem C3_accuracy_formula_witness :
    calculate_judge_rate 100 0 0 0 0 =
      some (pyRound 4 ((((100 : ℚ) + 0) * 100 + 0 * 70 + 0 * 30) /
        ((100 : ℚ) + 0 + 0 + 0 + 0))) :=
  (C3_accuracy_formula.1 100 0 0 0 0 (by decide)).1

/-- New report used for the C2 tie-break instance: accuracy 98.0, score
900000, full combo. -/
def reportC2 : AnalysisReport :=
  ⟨testSong, 900000, 98, 0, 4, .EASY, 10, 0, .S, true, false, false, 0, 0⟩

/-- Existing best record used for the C2 tie-break instance: accuracy 98.0,
score 900000, no full combo. -/
def existingC2 : DecodeResult := ⟨1, 4, .EASY, 10, 98, 900000, 0, 0, false, false⟩

/-- C2: the reconciler's win decision is lexicographic with the first
decisive criterion winning — strictly higher accuracy, then equal accuracy
and strictly higher score, then equal accuracy and score with a new full
combo over a prior non-full-combo — and in particular the (98.0, 900000,
full-combo) report beats the (98.0, 900000, no-full-combo) record. -/
theorem C2_win_decision :
    (∀ (r : AnalysisReport) (e : DecodeResult),
      reportWins r e = true ↔
        (e.judge < r.judge
          ∨ (r.judge = e.judge ∧ e.score < r.score)
          ∨ (r.judge = e.judge ∧ r.score = e.score
            ∧ r.isFullCombo = true ∧ e.isFullCombo = false)))
    ∧ reportWins reportC2 existingC2 = true := by
  constructor
  · intro r e
    unfold reportWins
    split_ifs with h1 h2 h3 h4 <;> simp_all
  · simp [reportWins, reportC2, existingC2]

/-- The post-gate result-screen pipeline never produces the
recognition-rejected error. -/
lemma resultBody_ne_rejected (rec : ResultRecog) :
    extractInfoResultBody rec ≠ .error .recognitionRejected := by
  unfold extractInfoResultBody
  dsimp only
  split <;> simp

/-- The post-gate select-screen pipeline never produces the
recognition-rejected error. -/
lemma selectBody_ne_rejected (rec : SelectRecog) :
    analyzeSelectBody rec ≠ .error .recognitionRejected := by
  unfold analyzeSelectBody
  dsimp only
  split <;> simp

/-- C1 (threshold part, and the second failure mode): both analysis paths
raise recognition-rejected exactly when the jacket match distance is 6 or
more — so distance 5 is accepted and distance 6 rejected — and the
rejection happens before any scoring; but recognition-rejected is not the
only exception-like failure: on the accepted all-zero-OCR input the result
pipeline raises the division-by-zero error instead. -/
theorem C1_rejection_threshold :
    (∀ rec : ResultRecog,
      extractInfoResult rec = .error .recognitionRejected ↔ 5 < rec.matchDistance)
    ∧ (∀ rec : SelectRecog,
      analyzeSelect rec = .error .recognitionRejected ↔ 5 < rec.matchDistance)
    ∧ recogAllZero.matchDistance ≤ 5
    ∧ extractInfoResult recogAllZero = .error .zeroDivision
    ∧ ArchiveError.zeroDivision ≠ ArchiveError.recognitionRejected := by
  refine ⟨?_, ?_, by decide, by rfl, by decide⟩
  · intro rec
    unfold extractInfoResult
    by_cases h : 5 < rec.matchDistance
    · simp [h]
    · simp [h, resultBody_ne_rejected rec]
  · intro rec
    unfold analyzeSelect
    by_cases h : 5 < rec.matchDistance
    · simp [h]
    · simp [h, selectBody_ne_rejected rec]

/-- C8: the pipeline does not complete for every recognizable field value —
on a result screen with an accepted jacket match (distance 0) and the
documented default 0 for every integer field, `calculate_judge_rate`
divides by zero and the analysis aborts instead of returning a report. -/
theorem C8_all_zero_fields_crash :
    extractInfoResult recogAllZero = .error .zeroDivision := by rfl

/-- C7 (amended): whenever an analysis completes and the matched song's
catalog lists exactly one valid level for the report's (line, difficulty)
pair, the returned report's level field equals that unique catalog level,
on both the result path and the select path. -/
theorem C7_catalog_level_override :
    (∀ (rec : ResultRecog) (rep : AnalysisReport),
      extractInfoResult rec = .ok rep →
      ∀ l : ℤ, getAvailableLevels rep.song rep.line rep.difficulty = [l] →
        rep.level = l)
    ∧ (∀ (rec : SelectRecog) (rep : AnalysisReport),
      analyzeSelect rec = .ok rep →
      ∀ l : ℤ, getAvailableLevels rep.song rep.line rep.difficulty = [l] →
        rep.level = l) := by
  constructor
  · intro rec rep hok l hl
    unfold extractInfoResult at hok
    by_cases h : 5 < rec.matchDistance
    · rw [if_pos h] at hok
      exact Except.noConfusion hok
    · rw [if_neg h] at hok
      unfold extractInfoResultBody at hok
      dsimp only at hok
      split at hok
      all_goals first
        | exact Except.noConfusion hok
        | (simp only [Except.ok.injEq] at hok
           subst hok
           dsimp only at hl ⊢
           rw [hl])
  · intro rec rep hok l hl
    unfold analyzeSelect at hok
    by_cases h : 5 < rec.matchDistance
    · rw [if_pos h] at hok
      exact Except.noConfusion hok
    · rw [if_neg h] at hok
      unfold analyzeSelectBody at hok
      dsimp only at hok
      split at hok
      all_goals first
        | exact Except.noConfusion hok
        | (simp only [Except.ok.injEq] at hok
           subst hok
           dsimp only at hl ⊢
           rw [hl]
           simp)

/-- Witness for C7 on `recogC7`, whose catalog has the unique level 10 for
(4 lines, EASY). -/
theorem C7_catalog_level_override_witness : reportC7.level = 10 :=
  C7_catalog_level_override.1 recogC7 reportC7 extract_recogC7 10 avail_testSong

/-- Counterexample for C7 as stated: on `recogC7` the report's level is the
catalog's 10, yet the reported rating equals the one derived from the OCR
level 5 and differs from the rating the formula gives at the overridden
level 10 — the rating is computed before the override. -/
theorem C7_rating_from_ocr_level :
    extractInfoResult recogC7 = Except.ok reportC7
    ∧ reportC7.level = 10
    ∧ reportC7.patch = calculate_patch 5 Rank.AAPlus false 97
    ∧ reportC7.patch ≠ calculate_patch reportC7.level reportC7.rank false reportC7.judge := by
  have h1 : reportC7.patch = (14259 / 100 : ℚ) := rfl
  have h2 : reportC7.level = (10 : ℤ) := rfl
  have h3 : reportC7.judge = (97 : ℚ) := rfl
  have h4 : reportC7.rank = Rank.AAPlus := rfl
  refine ⟨extract_recogC7, h2, ?_, ?_⟩
  · rw [h1, patch_level5]
  · rw [h1, h2, h3, h4, patch_level10]
    norm_num

/-- C9: when the new report does not win the lexicographic comparison, the
reconciler leaves the archive mapping untouched, issues no sync request,
and logs only the stored record's summary together with the elapsed time
since it was decoded. -/
theorem C9_no_update_is_pure :
    ∀ (archive : ArchiveKey → Option DecodeResult) (r : AnalysisReport) (now : ℤ),
      reportWins r (existingFor archive r now) = false →
        (updateArchive archive r now).1 = archive
        ∧ (updateArchive archive r now).2.1 = []
        ∧ (updateArchive archive r now).2.2 =
          [LogMsg.notUpdated r.song.id r.line r.difficulty r.level
             (Int.fdiv (now - (existingFor archive r now).decodedAt) 86400)
             (Int.fdiv (Int.fmod (now - (existingFor archive r now).decodedAt) 86400) 3600),
           LogMsg.bestJudge (existingFor archive r now).judge
             (loseBadge (existingFor archive r now)),
           LogMsg.bestScore (existingFor archive r now).score,
           LogMsg.bestPatch (existingFor archive r now).patch] := by
  intro archive r now h
  unfold updateArchive
  dsimp only
  split
  · rename_i hcond
    rw [h] at hcond
    exact absurd hcond (by simp)
  · exact ⟨rfl, rfl, rfl⟩

/-- The empty archive used by the C9 witness. -/
def archiveEmpty : ArchiveKey → Option DecodeResult := fun _ => none

/-- An all-zero report that cannot beat the zero-valued placeholder
record. -/
def reportLose : AnalysisReport :=
  ⟨testSong, 0, 0, 0, 4, .EASY, 10, 0, .C, false, false, false, 0, 0⟩

/-- The all-zero report does not win against the synthesized placeholder. -/
lemma reportLose_no_win :
    reportWins reportLose (existingFor archiveEmpty reportLose 0) = false := by
  simp [reportWins, existingFor, archiveEmpty, reportLose]

/-- Witness for C9 on the empty archive and the all-zero report. -/
theorem C9_no_update_is_pure_witness :
    (updateArchive archiveEmpty reportLose 0).1 = archiveEmpty
    ∧ (updateArchive archiveEmpty reportLose 0).2.1 = [] :=
  ⟨(C9_no_update_is_pure archiveEmpty reportLose 0 reportLose_no_win).1,
   (C9_no_update_is_pure archiveEmpty reportLose 0 reportLose_no_win).2.1⟩

end Platina
